import Mathlib

/-
Verification of the controller-click-trainer core against its specification.

The Python modules `src/controller_monitor.py` and `src/diagnostics.py` are
shallowly embedded below.  Conventions of the embedding:
  * Python floats (timestamps, durations, thresholds) are modelled as exact
    rationals `ℚ`; `round(x, k)` is modelled as exact rounding of a rational
    to `k` decimal places.
  * Python dicts are modelled as association lists `List (String × α)`
    with first-occurrence lookup/update/removal, matching dict get/set/pop.
  * The float sentinel `float("inf")` used to initialise `min_duration_ms`
    is modelled as `none : Option ℚ` (`some v` models a finite float `v`).
  * Fallible returns (the `{"error": ...}` dict of
    `analyze_press_durations`) are modelled with `Except String`.
  * The irrational square roots taken for `std_dev_ms` and
    `consistenza_tap_rapidi_std` are not representable in `ℚ`; the record
    below carries the exact variances those square roots are taken of.
-/

namespace CCT

/-- Association-list lookup: the value at the first occurrence of key `k`,
modelling Python `dict` lookup / `dict.get`. -/
def alGet {α : Type} : List (String × α) → String → Option α
  | [], _ => none
  | (k0, v0) :: rest, k => if k0 = k then some v0 else alGet rest k

/-- Association-list lookup with a default, modelling `dict.get(k, default)`. -/
def alGetD {α : Type} (d : List (String × α)) (k : String) (v : α) : α :=
  (alGet d k).getD v

/-- Association-list update: replace the value at the first occurrence of `k`,
or append the binding, modelling Python `d[k] = v`. -/
def alSet {α : Type} : List (String × α) → String → α → List (String × α)
  | [], k, v => [(k, v)]
  | (k0, v0) :: rest, k, v =>
      if k0 = k then (k, v) :: rest else (k0, v0) :: alSet rest k v

/-- Association-list removal of the first occurrence of `k`, modelling the
removal performed by Python `d.pop(k, None)`. -/
def alErase {α : Type} : List (String × α) → String → List (String × α)
  | [], _ => []
  | (k0, v0) :: rest, k => if k0 = k then rest else (k0, v0) :: alErase rest k

/-- `PressEvent` from `controller_monitor.py`: one completed press. -/
structure PressEvent where
  button : String
  press_time : ℚ
  release_time : ℚ
  duration_ms : ℚ
deriving DecidableEq

/-- `SessionStats` from `controller_monitor.py`.  `min_duration_ms = none`
models the initial `float("inf")` sentinel. -/
structure SessionStats where
  start_time : ℚ
  total_presses : ℕ
  presses_per_button : List (String × ℕ)
  min_duration_ms : Option ℚ
  max_duration_ms : ℚ
  last_duration_ms : ℚ
  threshold_successes : ℕ
  below_threshold : Bool
  durations_history : List (ℚ × ℚ × String)
deriving DecidableEq

/-- The default `SessionStats()` instance created at session start. -/
def initStats (start_time : ℚ) : SessionStats :=
  { start_time := start_time
    total_presses := 0
    presses_per_button := []
    min_duration_ms := none
    max_duration_ms := 0
    last_duration_ms := 0
    threshold_successes := 0
    below_threshold := false
    durations_history := [] }

/-- The mutable state of `ControllerMonitor` that the event-processing path
reads and writes. -/
structure MonitorState where
  threshold_ms : ℚ
  button_press_times : List (String × ℚ)
  press_log : List PressEvent
  trigger_threshold : ℤ
  trigger_states : List (String × Bool)
  dpad_states : List (String × Bool)
  monitored_button : Option String
  stats : SessionStats
deriving DecidableEq

/-- A fresh monitor as built by `ControllerMonitor.__init__` plus the state
reset performed by `start()`. -/
def initMonitor (threshold_ms : ℚ) : MonitorState :=
  { threshold_ms := threshold_ms
    button_press_times := []
    press_log := []
    trigger_threshold := 128
    trigger_states := []
    dpad_states := []
    monitored_button := none
    stats := initStats 0 }

/-- `BUTTON_MAP` from `controller_monitor.py`. -/
def BUTTON_MAP : List (String × String) :=
  [("BTN_SOUTH", "A"), ("BTN_EAST", "B"), ("BTN_WEST", "X"), ("BTN_NORTH", "Y"),
   ("BTN_TL", "LB"), ("BTN_TR", "RB"), ("BTN_THUMBL", "LS"), ("BTN_THUMBR", "RS"),
   ("BTN_START", "Start"), ("BTN_SELECT", "Back")]

/-- `TRIGGER_MAP` from `controller_monitor.py`. -/
def TRIGGER_MAP : List (String × String) := [("ABS_Z", "LT"), ("ABS_RZ", "RT")]

/-- `DPAD_MAP` from `controller_monitor.py`. -/
def DPAD_MAP : List (String × String) :=
  [("ABS_HAT0X", "D-Pad X"), ("ABS_HAT0Y", "D-Pad Y")]

/-- Exact rounding to 2 decimal places, modelling Python `round(x, 2)`. -/
def round2 (x : ℚ) : ℚ := (round (x * 100) : ℚ) / 100

/-- Exact rounding to 1 decimal place, modelling Python `round(x, 1)`. -/
def round1 (x : ℚ) : ℚ := (round (x * 10) : ℚ) / 10

/-- The comparison `d < self.stats.min_duration_ms` where the right side may
be the `float("inf")` sentinel (`none`). -/
def ltInf (d : ℚ) : Option ℚ → Bool
  | none => true
  | some v => decide (d < v)

/-- `_update_stats` from `controller_monitor.py`: fold one completed press
into `SessionStats`, reading the threshold in force at that moment. -/
def updateStats (threshold_ms : ℚ) (st : SessionStats) (e : PressEvent) :
    SessionStats :=
  let d := e.duration_ms
  { st with
    total_presses := st.total_presses + 1
    last_duration_ms := d
    presses_per_button :=
      alSet st.presses_per_button e.button
        (alGetD st.presses_per_button e.button 0 + 1)
    min_duration_ms :=
      if ltInf d st.min_duration_ms then some d else st.min_duration_ms
    max_duration_ms :=
      if st.max_duration_ms < d then d else st.max_duration_ms
    below_threshold := decide (d ≤ threshold_ms)
    threshold_successes :=
      if d ≤ threshold_ms then st.threshold_successes + 1
      else st.threshold_successes
    durations_history :=
      st.durations_history ++ [(e.release_time, d, e.button)] }

/-- `_register_press` from `controller_monitor.py`: build the `PressEvent`
(rounding the duration to 2 decimals), append it to the press log and update
the statistics.  The observer callback has no effect on monitor state. -/
def registerPress (s : MonitorState) (button : String)
    (press_time release_time duration_ms : ℚ) : MonitorState :=
  let e : PressEvent :=
    { button := button
      press_time := press_time
      release_time := release_time
      duration_ms := round2 duration_ms }
  { s with
    press_log := s.press_log ++ [e]
    stats := updateStats s.threshold_ms s.stats e }

/-- `set_threshold` from `controller_monitor.py`. -/
def setThreshold (s : MonitorState) (value_ms : ℚ) : MonitorState :=
  { s with threshold_ms := max 1 value_ms }

/-- The classification half of `_process_event`: the `(button_name, is_press,
is_release)` triple it computes, together with the updated per-code analog
trigger and D-Pad boolean state maps. -/
structure ClassifyResult where
  button_name : Option String
  is_press : Bool
  is_release : Bool
  trigger_states : List (String × Bool)
  dpad_states : List (String × Bool)
deriving DecidableEq

/-- Classification of one raw `(code, state)` event, translated from the
first half of `_process_event` (lines 244-290 of `controller_monitor.py`). -/
def classify (trig dpad : List (String × Bool)) (trigger_threshold : ℤ)
    (code : String) (state : ℤ) : ClassifyResult :=
  match alGet BUTTON_MAP code with
  | some bname =>
      if state = 1 then ⟨some bname, true, false, trig, dpad⟩
      else if state = 0 then ⟨some bname, false, true, trig, dpad⟩
      else ⟨some bname, false, false, trig, dpad⟩
  | none =>
  match alGet TRIGGER_MAP code with
  | some tname =>
      let was := alGetD trig code false
      let isP := decide (trigger_threshold < state)
      let trig2 := alSet trig code isP
      if isP && !was then ⟨some tname, true, false, trig2, dpad⟩
      else if !isP && was then ⟨some tname, false, true, trig2, dpad⟩
      else ⟨none, false, false, trig2, dpad⟩
  | none =>
  match alGet DPAD_MAP code with
  | some dname =>
      let was := alGetD dpad code false
      let isP := decide (state ≠ 0)
      let dpad2 := alSet dpad code isP
      if isP && !was then ⟨some dname, true, false, trig, dpad2⟩
      else if !isP && was then ⟨some dname, false, true, trig, dpad2⟩
      else ⟨none, false, false, trig, dpad2⟩
  | none => ⟨none, false, false, trig, dpad⟩

/-- The single-button filter `if self.monitored_button and button_name !=
self.monitored_button: return` of `_process_event`. -/
def filterOut (monitored : Option String) (bname : String) : Bool :=
  match monitored with
  | some m => decide (bname ≠ m)
  | none => false

/-- `_process_event` from `controller_monitor.py`: classify the raw event,
install the updated trigger and D-Pad maps, apply the monitored-button
filter, then record a press timestamp or complete a press on release.
A release pops the open press time; when none is stored it is a no-op. -/
def processEvent (s : MonitorState) (code : String) (state : ℤ) (t : ℚ) :
    MonitorState :=
  let r := classify s.trigger_states s.dpad_states s.trigger_threshold code state
  let s1 := { s with trigger_states := r.trigger_states
                     dpad_states := r.dpad_states }
  match r.button_name with
  | none => s1
  | some bname =>
      if filterOut s1.monitored_button bname then s1
      else if r.is_press then
        { s1 with button_press_times := alSet s1.button_press_times bname t }
      else if r.is_release then
        let pt? := alGet s1.button_press_times bname
        let s2 := { s1 with
                    button_press_times := alErase s1.button_press_times bname }
        match pt? with
        | some pt => registerPress s2 bname pt t ((t - pt) * 1000)
        | none => s2
      else s1

/-- One call on the aggregator side: either `_update_stats` processing one
completed press, or `set_threshold` changing the target threshold. -/
inductive AggOp where
  | update (e : PressEvent)
  | setThr (value_ms : ℚ)
deriving DecidableEq

/-- Run a sequence of aggregator updates and `set_threshold` calls, starting
from threshold `th` and statistics `st`, exactly as the monitor executes
them (`set_threshold` stores `max(1.0, v)`; `_update_stats` reads the
threshold in force at that moment). -/
def runAgg : ℚ → SessionStats → List AggOp → ℚ × SessionStats
  | th, st, [] => (th, st)
  | th, st, AggOp.update e :: rest => runAgg th (updateStats th st e) rest
  | _, st, AggOp.setThr v :: rest => runAgg (max 1 v) st rest

/-- Modelled from the spec: the number of processed events whose duration
was at or below the threshold in force when that event was processed
(`threshold_successes == count of PressEvents ... <= threshold_ms at the
time each event was processed`). -/
def specSuccessCount : ℚ → List AggOp → ℕ
  | _, [] => 0
  | th, AggOp.update e :: rest =>
      (if e.duration_ms ≤ th then 1 else 0) + specSuccessCount th rest
  | _, AggOp.setThr v :: rest => specSuccessCount (max 1 v) rest

/-- The transitions (button name, `true` for Press / `false` for Release)
emitted by classifying a stream of raw states for one code, threading the
per-code boolean maps exactly as `_process_event` does with the monitor
default trigger threshold 128. -/
def classifySeq (trig dpad : List (String × Bool)) (code : String) :
    List ℤ → List (String × Bool)
  | [] => []
  | st :: rest =>
      let r := classify trig dpad 128 code st
      let emitted : List (String × Bool) :=
        match r.button_name with
        | some n =>
            if r.is_press then [(n, true)]
            else if r.is_release then [(n, false)]
            else []
        | none => []
      emitted ++ classifySeq r.trigger_states r.dpad_states code rest

/-- `min` over a nonempty Python list, `min(l)`; `0` is never used (the
function is only applied to nonempty lists). -/
def listMin (l : List ℚ) : ℚ :=
  match l with
  | [] => 0
  | x :: r => r.foldl min x

/-- `max` over a nonempty Python list, `max(l)`. -/
def listMax (l : List ℚ) : ℚ :=
  match l with
  | [] => 0
  | x :: r => r.foldl max x

/-- `QUALITY_THRESHOLDS` from `diagnostics.py`, in dict insertion order:
each entry is (quality label, polling_min, jitter_max). -/
def QUALITY_THRESHOLDS : List (String × ℚ × ℚ) :=
  [("Ottima", 200, 2), ("Buona", 100, 5), ("Discreta", 50, 10)]

/-- The first-match loop of `evaluate_connection` over the threshold table;
no match yields `"Scarsa"`. -/
def evalQuality (polling_rate jitter : ℚ) : List (String × ℚ × ℚ) → String
  | [] => "Scarsa"
  | (q, pmin, jmax) :: rest =>
      if polling_rate ≥ pmin ∧ jitter ≤ jmax then q
      else evalQuality polling_rate jitter rest

/-- `evaluate_connection` from `diagnostics.py`.  The Italian labels are the
ones the source returns: `"N/D"` = not available, `"Ottima"` = Excellent,
`"Buona"` = Good, `"Discreta"` = Fair, `"Scarsa"` = Poor. -/
def evaluateConnection (polling_rate : ℚ)
    (latency_stats : List (String × ℚ)) : String :=
  if polling_rate = 0 then "N/D"
  else evalQuality polling_rate (alGetD latency_stats "jitter" 0)
    QUALITY_THRESHOLDS

/-- `sorted(durations_ms)`: the input sorted ascending. -/
def sortQ (l : List ℚ) : List ℚ := List.insertionSort (fun a b : ℚ => a ≤ b) l

/-- The analysis record returned by `analyze_press_durations`.  The code
rounds `std_dev_ms` and `consistenza_tap_rapidi_std` after taking square
roots; being irrational, those roots are carried here as the exact
variances they are the roots of (`variance`, `fast_variance`). -/
structure DurationAnalysis where
  campioni : ℕ
  media_ms : ℚ
  mediana_ms : ℚ
  min_ms : ℚ
  max_ms : ℚ
  variance : ℚ
  percentile_10 : ℚ
  percentile_90 : ℚ
  risoluzione_minima_ms : ℚ
  sotto_50ms : ℕ
  sotto_50ms_pct : ℚ
  sotto_100ms : ℕ
  sotto_100ms_pct : ℚ
  fast_variance : ℚ
deriving DecidableEq

/-- `analyze_press_durations` from `diagnostics.py`.  The empty input
returns the error dict `{"error": "Nessun dato"}`, modelled as
`Except.error`.  `int(n * 0.1)` and `int(n * 0.9)` on the exact values are
the natural-number divisions `n / 10` and `9 * n / 10`. -/
def analyzePressDurations (durations_ms : List ℚ) :
    Except String DurationAnalysis :=
  if durations_ms = [] then Except.error "Nessun dato"
  else
    let n := durations_ms.length
    let avg := durations_ms.sum / (n : ℚ)
    let min_val := listMin durations_ms
    let max_val := listMax durations_ms
    let variance := (durations_ms.map (fun x => (x - avg) ^ 2)).sum / (n : ℚ)
    let sorted_d := sortQ durations_ms
    let median :=
      if n % 2 = 0 then
        (sorted_d.getD (n / 2 - 1) 0 + sorted_d.getD (n / 2) 0) / 2
      else sorted_d.getD (n / 2) 0
    let p10 := sorted_d.getD (max 0 (n / 10)) 0
    let p90 := sorted_d.getD (min (n - 1) (9 * n / 10)) 0
    let min_resolution := min_val
    let under_50 := durations_ms.countP (fun d => decide (d ≤ 50))
    let under_100 := durations_ms.countP (fun d => decide (d ≤ 100))
    let fast_presses := durations_ms.filter (fun d => decide (d ≤ median))
    let fast_variance :=
      if 1 < fast_presses.length then
        (fast_presses.map
          (fun x => (x - fast_presses.sum / (fast_presses.length : ℚ)) ^ 2)).sum
          / (fast_presses.length : ℚ)
      else 0
    Except.ok
      { campioni := n
        media_ms := round2 avg
        mediana_ms := round2 median
        min_ms := round2 min_val
        max_ms := round2 max_val
        variance := variance
        percentile_10 := round2 p10
        percentile_90 := round2 p90
        risoluzione_minima_ms := round2 min_resolution
        sotto_50ms := under_50
        sotto_50ms_pct := round1 ((under_50 : ℚ) / (n : ℚ) * 100)
        sotto_100ms := under_100
        sotto_100ms_pct := round1 ((under_100 : ℚ) / (n : ℚ) * 100)
        fast_variance := fast_variance }

/-- `_calculate_trend` from `diagnostics.py`. -/
def calculateTrend (values : List ℚ) : String :=
  if values.length < 3 then "dati insufficienti"
  else
    let mid := values.length / 2
    let first_half := (values.take mid).sum / (mid : ℚ)
    let second_half := (values.drop mid).sum / ((values.length - mid : ℕ) : ℚ)
    if first_half = 0 then "stabile"
    else
      let diff_pct := (second_half - first_half) / first_half * 100
      if diff_pct < -5 then "miglioramento"
      else if diff_pct > 5 then "peggioramento"
      else "stabile"

/-- The `SessionStats` invariant stated by the specification:
`total_presses` equals the sum of the per-button counters, and once at
least one press was recorded, `min_duration_ms` is finite and
`min_duration_ms <= last_duration_ms <= max_duration_ms`. -/
def StatsInv (st : SessionStats) : Prop :=
  st.total_presses = (st.presses_per_button.map Prod.snd).sum ∧
  (0 < st.total_presses →
    ∃ m, st.min_duration_ms = some m ∧
      m ≤ st.last_duration_ms ∧ st.last_duration_ms ≤ st.max_duration_ms)

theorem alGet_alSet_self {α : Type} (d : List (String × α)) (k : String)
    (v : α) : alGet (alSet d k v) k = some v := by
  induction d with
  | nil => simp [alSet, alGet]
  | cons p rest ih =>
      obtain ⟨k0, v0⟩ := p
      by_cases h : k0 = k
      · simp [alSet, alGet, h]
      · simp [alSet, alGet, h, ih]

theorem alErase_of_alGet_none {α : Type} (d : List (String × α)) (k : String)
    (h : alGet d k = none) : alErase d k = d := by
  induction d with
  | nil => simp [alErase]
  | cons p rest ih =>
      obtain ⟨k0, v0⟩ := p
      by_cases hk : k0 = k
      · simp [alGet, hk] at h
      · simp [alGet, hk] at h
        simp [alErase, hk, ih h]

theorem sum_alSet_incr (d : List (String × ℕ)) (k : String) :
    ((alSet d k (alGetD d k 0 + 1)).map Prod.snd).sum
      = (d.map Prod.snd).sum + 1 := by
  induction d with
  | nil => simp [alSet, alGetD, alGet]
  | cons p rest ih =>
      obtain ⟨k0, v0⟩ := p
      by_cases h : k0 = k
      · simp [alSet, alGetD, alGet, h]
        omega
      · have h2 : alGetD ((k0, v0) :: rest) k 0 = alGetD rest k 0 := by
          simp [alGetD, alGet, h]
        simp only [alSet, if_neg h, List.map_cons, List.sum_cons, h2, ih]
        omega

theorem processEvent_digital_press (s : MonitorState) (code bname : String)
    (t : ℚ) (hb : alGet BUTTON_MAP code = some bname)
    (hmon : filterOut s.monitored_button bname = false) :
    processEvent s code 1 t
      = { s with button_press_times := alSet s.button_press_times bname t } := by
  simp [processEvent, classify, hb, hmon]

theorem processEvent_digital_release (s : MonitorState) (code bname : String)
    (t : ℚ) (hb : alGet BUTTON_MAP code = some bname)
    (hmon : filterOut s.monitored_button bname = false) :
    processEvent s code 0 t
      = match alGet s.button_press_times bname with
        | some pt =>
            registerPress
              { s with button_press_times := alErase s.button_press_times bname }
              bname pt t ((t - pt) * 1000)
        | none =>
            { s with button_press_times := alErase s.button_press_times bname } := by
  simp [processEvent, classify, hb, hmon]

theorem filterOut_none_or_self (m : Option String) (b : String)
    (h : m = none ∨ m = some b) : filterOut m b = false := by
  rcases h with h | h <;> simp [filterOut, h]

/-- Claim C1: for a button code, processing a Press at `t1` and then a
Release at `t2` (with `t1 ≤ t2`, the button not filtered out) appends
exactly one `PressEvent` with `duration_ms = round2 ((t2 - t1) * 1000)` to
the press log and increases `total_presses` by exactly 1; the Press step
itself adds no event and leaves the statistics untouched. -/
theorem c1_press_release_duration (s : MonitorState) (code bname : String)
    (t1 t2 : ℚ) (hb : alGet BUTTON_MAP code = some bname)
    (hmon : s.monitored_button = none ∨ s.monitored_button = some bname)
    (ht : t1 ≤ t2) :
    (processEvent (processEvent s code 1 t1) code 0 t2).press_log
      = s.press_log
        ++ [{ button := bname, press_time := t1, release_time := t2,
              duration_ms := round2 ((t2 - t1) * 1000) }] ∧
    (processEvent (processEvent s code 1 t1) code 0 t2).stats.total_presses
      = s.stats.total_presses + 1 ∧
    (processEvent s code 1 t1).press_log = s.press_log ∧
    (processEvent s code 1 t1).stats = s.stats := by
  have hf : filterOut s.monitored_button bname = false :=
    filterOut_none_or_self _ _ hmon
  have h1 := processEvent_digital_press s code bname t1 hb hf
  have h2 := processEvent_digital_release
    { s with button_press_times := alSet s.button_press_times bname t1 }
    code bname t2 hb hf
  rw [alGet_alSet_self] at h2
  rw [h1, h2]
  refine ⟨?_, ?_, rfl, rfl⟩
  · simp [registerPress]
  · simp [registerPress, updateStats]

/-- Claim C1 witness: a concrete press/release pair of the `A` button
(`BTN_SOUTH`) on a fresh monitor. -/
theorem c1_press_release_duration_witness :
    (processEvent (processEvent (initMonitor 50) "BTN_SOUTH" 1 1)
        "BTN_SOUTH" 0 2).press_log
      = (initMonitor 50).press_log
        ++ [{ button := "A", press_time := 1, release_time := 2,
              duration_ms := round2 ((2 - 1) * 1000) }] ∧
    (processEvent (processEvent (initMonitor 50) "BTN_SOUTH" 1 1)
        "BTN_SOUTH" 0 2).stats.total_presses
      = (initMonitor 50).stats.total_presses + 1 ∧
    (processEvent (initMonitor 50) "BTN_SOUTH" 1 1).press_log
      = (initMonitor 50).press_log ∧
    (processEvent (initMonitor 50) "BTN_SOUTH" 1 1).stats
      = (initMonitor 50).stats :=
  c1_press_release_duration (initMonitor 50) "BTN_SOUTH" "A" 1 2
    (by decide) (Or.inl rfl) (by norm_num)

/-- Claim C2: a Release for a button with no stored open press time adds no
`PressEvent`, leaves the press log and the open-press map unchanged, and
leaves every field of `SessionStats` unchanged. -/
theorem c2_release_without_press (s : MonitorState) (code bname : String)
    (t : ℚ) (hb : alGet BUTTON_MAP code = some bname)
    (hopen : alGet s.button_press_times bname = none) :
    (processEvent s code 0 t).press_log = s.press_log ∧
    (processEvent s code 0 t).stats = s.stats ∧
    (processEvent s code 0 t).button_press_times = s.button_press_times := by
  by_cases hf : filterOut s.monitored_button bname
  · simp [processEvent, classify, hb, hf]
  · have h := processEvent_digital_release s code bname t hb
      (by simpa using hf)
    rw [hopen] at h
    rw [h, alErase_of_alGet_none s.button_press_times bname hopen]
    exact ⟨rfl, rfl, rfl⟩

/-- Claim C2 witness: a stray Release of `B` (`BTN_EAST`) on a fresh
monitor changes nothing. -/
theorem c2_release_without_press_witness :
    (processEvent (initMonitor 50) "BTN_EAST" 0 5).press_log
      = (initMonitor 50).press_log ∧
    (processEvent (initMonitor 50) "BTN_EAST" 0 5).stats
      = (initMonitor 50).stats ∧
    (processEvent (initMonitor 50) "BTN_EAST" 0 5).button_press_times
      = (initMonitor 50).button_press_times :=
  c2_release_without_press (initMonitor 50) "BTN_EAST" "B" 5
    (by decide) (by decide)

/-- Claim C9: a duplicate Press while the button is already held overwrites
the stored press time with the new timestamp, emits no event and changes no
statistics, and a subsequent Release measures its duration from the most
recent Press. -/
theorem c9_duplicate_press_overwrites (s : MonitorState) (code bname : String)
    (t0 t1 t2 : ℚ) (hb : alGet BUTTON_MAP code = some bname)
    (hmon : s.monitored_button = none ∨ s.monitored_button = some bname)
    (hopen : alGet s.button_press_times bname = some t0) :
    alGet (processEvent s code 1 t1).button_press_times bname = some t1 ∧
    (processEvent s code 1 t1).press_log = s.press_log ∧
    (processEvent s code 1 t1).stats = s.stats ∧
    (processEvent (processEvent s code 1 t1) code 0 t2).press_log
      = s.press_log
        ++ [{ button := bname, press_time := t1, release_time := t2,
              duration_ms := round2 ((t2 - t1) * 1000) }] := by
  have hf : filterOut s.monitored_button bname = false :=
    filterOut_none_or_self _ _ hmon
  have h1 := processEvent_digital_press s code bname t1 hb hf
  have h2 := processEvent_digital_release
    { s with button_press_times := alSet s.button_press_times bname t1 }
    code bname t2 hb hf
  rw [alGet_alSet_self] at h2
  rw [h1, h2]
  exact ⟨alGet_alSet_self _ _ _, rfl, rfl, by simp [registerPress]⟩

/-- Claim C9 witness: press `A` at time 0, press again at time 3, release
at time 4: the logged press measures from time 3. -/
theorem c9_duplicate_press_overwrites_witness :
    alGet (processEvent (processEvent (initMonitor 50) "BTN_SOUTH" 1 0)
        "BTN_SOUTH" 1 3).button_press_times "A" = some 3 ∧
    (processEvent (processEvent (initMonitor 50) "BTN_SOUTH" 1 0)
        "BTN_SOUTH" 1 3).press_log
      = (processEvent (initMonitor 50) "BTN_SOUTH" 1 0).press_log ∧
    (processEvent (processEvent (initMonitor 50) "BTN_SOUTH" 1 0)
        "BTN_SOUTH" 1 3).stats
      = (processEvent (initMonitor 50) "BTN_SOUTH" 1 0).stats ∧
    (processEvent (processEvent (processEvent (initMonitor 50)
        "BTN_SOUTH" 1 0) "BTN_SOUTH" 1 3) "BTN_SOUTH" 0 4).press_log
      = (processEvent (initMonitor 50) "BTN_SOUTH" 1 0).press_log
        ++ [{ button := "A", press_time := 3, release_time := 4,
              duration_ms := round2 ((4 - 3) * 1000) }] :=
  c9_duplicate_press_overwrites
    (processEvent (initMonitor 50) "BTN_SOUTH" 1 0) "BTN_SOUTH" "A" 0 3 4
    (by decide) (Or.inl rfl) (by decide)

theorem runAgg_threshold_successes (ops : List AggOp) :
    ∀ (th : ℚ) (st : SessionStats),
      (runAgg th st ops).2.threshold_successes
        = st.threshold_successes + specSuccessCount th ops := by
  induction ops with
  | nil => intro th st; simp [runAgg, specSuccessCount]
  | cons op rest ih =>
      intro th st
      cases op with
      | update e =>
          by_cases h : e.duration_ms ≤ th <;>
            simp [runAgg, specSuccessCount, updateStats, ih, h] <;> omega
      | setThr v => simp [runAgg, specSuccessCount, ih]

/-- Claim C3: a processed press is a success iff its duration is at or
below the threshold in force at processing time (`below_threshold` records
exactly that, `threshold_successes` is incremented exactly then);
`set_threshold(v)` stores `max(1.0, v)`; and over any sequence of updates
and `set_threshold` calls the final `threshold_successes` is the count of
events whose duration was at or below the threshold in force when each was
processed, with no retroactive recount. -/
theorem c3_threshold_success_policy (th v : ℚ) (st : SessionStats)
    (e : PressEvent) (s : MonitorState) (ops : List AggOp) :
    ((updateStats th st e).below_threshold = true ↔ e.duration_ms ≤ th) ∧
    (updateStats th st e).threshold_successes
      = st.threshold_successes + (if e.duration_ms ≤ th then 1 else 0) ∧
    (setThreshold s v).threshold_ms = max 1 v ∧
    (runAgg th st ops).2.threshold_successes
      = st.threshold_successes + specSuccessCount th ops := by
  refine ⟨by simp [updateStats], ?_, rfl, runAgg_threshold_successes ops th st⟩
  by_cases h : e.duration_ms ≤ th <;> simp [updateStats, h]

/-- Claim C3 witness: on a fresh session with threshold 50, an update with
duration 30 (success), a threshold change to 20, and an update with
duration 30 again (now a failure) yield exactly one success. -/
theorem c3_threshold_success_policy_witness :
    ((updateStats 50 (initStats 0)
        (⟨"A", 0, 1, 30⟩ : PressEvent)).below_threshold = true
      ↔ (30 : ℚ) ≤ 50) ∧
    (updateStats 50 (initStats 0)
        (⟨"A", 0, 1, 30⟩ : PressEvent)).threshold_successes
      = (initStats 0).threshold_successes + (if (30 : ℚ) ≤ 50 then 1 else 0) ∧
    (setThreshold (initMonitor 50) 20).threshold_ms = max 1 20 ∧
    (runAgg 50 (initStats 0)
        [AggOp.update ⟨"A", 0, 1, 30⟩, AggOp.setThr 20,
         AggOp.update ⟨"A", 2, 3, 30⟩]).2.threshold_successes
      = (initStats 0).threshold_successes
        + specSuccessCount 50
            [AggOp.update ⟨"A", 0, 1, 30⟩, AggOp.setThr 20,
             AggOp.update ⟨"A", 2, 3, 30⟩] :=
  c3_threshold_success_policy 50 20 (initStats 0) ⟨"A", 0, 1, 30⟩
    (initMonitor 50)
    [AggOp.update ⟨"A", 0, 1, 30⟩, AggOp.setThr 20,
     AggOp.update ⟨"A", 2, 3, 30⟩]

/-- Claim C4: every aggregator update preserves the `SessionStats`
invariant (`total_presses` equals the sum of the per-button counters, and
once `total_presses > 0`, `min_duration_ms ≤ last_duration_ms ≤
max_duration_ms` with a finite minimum); the initial state satisfies it
with `min_duration_ms` the `float("inf")` sentinel (`none`) and
`max_duration_ms = 0`. -/
theorem c4_stats_invariant (th t0 : ℚ) (st : SessionStats) (e : PressEvent)
    (h : StatsInv st) :
    StatsInv (updateStats th st e) ∧ StatsInv (initStats t0) ∧
    (initStats t0).min_duration_ms = none ∧
    (initStats t0).max_duration_ms = 0 := by
  obtain ⟨hsum, _⟩ := h
  refine ⟨⟨?_, ?_⟩, ⟨rfl, by simp [initStats]⟩, rfl, rfl⟩
  · simp only [updateStats, sum_alSet_incr, hsum]
  · intro _
    have hmax : e.duration_ms ≤ (updateStats th st e).max_duration_ms := by
      by_cases hm : st.max_duration_ms < e.duration_ms <;>
        simp [updateStats, hm]
      exact le_of_not_lt hm
    by_cases hlt : ltInf e.duration_ms st.min_duration_ms
    · exact ⟨e.duration_ms, by simp [updateStats, hlt], le_refl _, hmax⟩
    · cases hmd : st.min_duration_ms with
      | none => rw [hmd] at hlt; simp [ltInf] at hlt
      | some m =>
          rw [hmd] at hlt
          simp only [ltInf, decide_eq_true_eq] at hlt
          refine ⟨m, ?_, le_of_not_lt ?_, hmax⟩
          · simp [updateStats, hmd, ltInf, hlt]
          · simpa [updateStats] using hlt

/-- Claim C4 witness: the invariant holds for the initial session and is
preserved by an update with a concrete press of duration 30. -/
theorem c4_stats_invariant_witness :
    StatsInv (updateStats 50
        { start_time := 0, total_presses := 1,
          presses_per_button := [("A", 1)], min_duration_ms := some 40,
          max_duration_ms := 40, last_duration_ms := 40,
          threshold_successes := 1, below_threshold := true,
          durations_history := [(1, 40, "A")] }
        { button := "B", press_time := 2, release_time := 3,
          duration_ms := 30 }) ∧
    StatsInv (initStats 0) ∧
    (initStats 0).min_duration_ms = none ∧
    (initStats 0).max_duration_ms = 0 :=
  c4_stats_invariant 50 0
    { start_time := 0, total_presses := 1, presses_per_button := [("A", 1)],
      min_duration_ms := some 40, max_duration_ms := 40,
      last_duration_ms := 40, threshold_successes := 1,
      below_threshold := true, durations_history := [(1, 40, "A")] }
    { button := "B", press_time := 2, release_time := 3, duration_ms := 30 }
    ⟨by decide, fun _ => ⟨40, rfl, by norm_num, by norm_num⟩⟩

/-- Claim C5: `evaluate_connection` returns the not-available label `"N/D"`
iff the polling rate is 0; otherwise the ordered threshold table decides
the label (first match wins, `"Scarsa"` when none matches).  The labels are
the Italian strings the source returns: `"Ottima"` = Excellent, `"Buona"`
= Good, `"Discreta"` = Fair, `"Scarsa"` = Poor, `"N/D"` = N/A.  The three
concrete cases of the specification are included. -/
theorem c5_evaluate_connection (r : ℚ) (ls : List (String × ℚ)) :
    (evaluateConnection r ls = "N/D" ↔ r = 0) ∧
    (r ≠ 0 → evaluateConnection r ls =
        (if r ≥ 200 ∧ alGetD ls "jitter" 0 ≤ 2 then "Ottima"
         else if r ≥ 100 ∧ alGetD ls "jitter" 0 ≤ 5 then "Buona"
         else if r ≥ 50 ∧ alGetD ls "jitter" 0 ≤ 10 then "Discreta"
         else "Scarsa")) ∧
    evaluateConnection 250 [("jitter", 1)] = "Ottima" ∧
    evaluateConnection 60 [("jitter", 15)] = "Scarsa" ∧
    evaluateConnection 0 [] = "N/D" := by
  have htab : ∀ _ : ¬ r = 0, evaluateConnection r ls =
      (if r ≥ 200 ∧ alGetD ls "jitter" 0 ≤ 2 then "Ottima"
       else if r ≥ 100 ∧ alGetD ls "jitter" 0 ≤ 5 then "Buona"
       else if r ≥ 50 ∧ alGetD ls "jitter" 0 ≤ 10 then "Discreta"
       else "Scarsa") := by
    intro hr
    simp [evaluateConnection, hr, evalQuality, QUALITY_THRESHOLDS]
  refine ⟨⟨?_, ?_⟩, htab, by decide, by decide, by decide⟩
  · intro h
    by_contra hr
    rw [htab hr] at h
    split_ifs at h <;> simp at h
  · intro h
    simp [evaluateConnection, h]

/-- Claim C5 witness: the non-degenerate branch at polling rate 250 and
jitter 1. -/
theorem c5_evaluate_connection_witness :
    (evaluateConnection 250 [("jitter", 1)] = "N/D" ↔ (250 : ℚ) = 0) ∧
    evaluateConnection 250 [("jitter", 1)]
      = (if (250 : ℚ) ≥ 200 ∧ alGetD [("jitter", (1 : ℚ))] "jitter" 0 ≤ 2
          then "Ottima"
         else if (250 : ℚ) ≥ 100 ∧ alGetD [("jitter", (1 : ℚ))] "jitter" 0 ≤ 5
          then "Buona"
         else if (250 : ℚ) ≥ 50 ∧ alGetD [("jitter", (1 : ℚ))] "jitter" 0 ≤ 10
          then "Discreta"
         else "Scarsa") ∧
    evaluateConnection 250 [("jitter", 1)] = "Ottima" :=
  ⟨(c5_evaluate_connection 250 [("jitter", 1)]).1,
   (c5_evaluate_connection 250 [("jitter", 1)]).2.1 (by norm_num),
   (c5_evaluate_connection 250 [("jitter", 1)]).2.2.1⟩

theorem trigger_code_not_button (code tname : String)
    (hb : alGet TRIGGER_MAP code = some tname) :
    alGet BUTTON_MAP code = none := by
  by_cases h1 : ("ABS_Z" : String) = code
  · subst h1; decide
  · by_cases h2 : ("ABS_RZ" : String) = code
    · subst h2; decide
    · exfalso
      simp [TRIGGER_MAP, alGet, h1, h2] at hb

/-- Claim C6: classification of an analog trigger is edge-triggered with
pressed iff `state > 128`: Press is emitted exactly on a
not-pressed-to-pressed transition, Release exactly on the converse, nothing
otherwise, and the stored pressed flag becomes `state > 128`; the concrete
stream `[0, 50, 200, 200, 10, 0]` yields exactly one Press (at the 200
transition) and one Release (at the drop to 10). -/
theorem c6_trigger_edge_classification (trig dpad : List (String × Bool))
    (code tname : String) (state : ℤ)
    (hb : alGet TRIGGER_MAP code = some tname) :
    ((classify trig dpad 128 code state).is_press = true
        ↔ (128 < state ∧ alGetD trig code false = false)) ∧
    ((classify trig dpad 128 code state).is_release = true
        ↔ (state ≤ 128 ∧ alGetD trig code false = true)) ∧
    ((classify trig dpad 128 code state).button_name = none
        ↔ ((classify trig dpad 128 code state).is_press = false ∧
           (classify trig dpad 128 code state).is_release = false)) ∧
    (classify trig dpad 128 code state).trigger_states
      = alSet trig code (decide (128 < state)) ∧
    classifySeq [] [] "ABS_Z" [0, 50, 200, 200, 10, 0]
      = [("LT", true), ("LT", false)] := by
  have hbn := trigger_code_not_button code tname hb
  by_cases hp : (128 : ℤ) < state <;> by_cases hw : alGetD trig code false = true
  · have h2 : ¬ state ≤ 128 := not_le.mpr hp
    refine ⟨?_, ?_, ?_, ?_, by decide⟩ <;> simp [classify, hbn, hb, hp, hw, h2]
  · simp only [Bool.not_eq_true] at hw
    have h2 : ¬ state ≤ 128 := not_le.mpr hp
    refine ⟨?_, ?_, ?_, ?_, by decide⟩ <;> simp [classify, hbn, hb, hp, hw, h2]
  · have h2 : state ≤ 128 := not_lt.mp hp
    refine ⟨?_, ?_, ?_, ?_, by decide⟩ <;> simp [classify, hbn, hb, hp, hw, h2]
  · simp only [Bool.not_eq_true] at hw
    have h2 : state ≤ 128 := not_lt.mp hp
    refine ⟨?_, ?_, ?_, ?_, by decide⟩ <;> simp [classify, hbn, hb, hp, hw, h2]

/-- Claim C6 witness: a rising edge at state 200 on `ABS_Z` (the `LT`
trigger) with no stored pressed flag. -/
theorem c6_trigger_edge_classification_witness :
    ((classify [] [] 128 "ABS_Z" 200).is_press = true
        ↔ ((128 : ℤ) < 200 ∧ alGetD [] "ABS_Z" false = false)) ∧
    ((classify [] [] 128 "ABS_Z" 200).is_release = true
        ↔ ((200 : ℤ) ≤ 128 ∧ alGetD [] "ABS_Z" false = true)) ∧
    ((classify [] [] 128 "ABS_Z" 200).button_name = none
        ↔ ((classify [] [] 128 "ABS_Z" 200).is_press = false ∧
           (classify [] [] 128 "ABS_Z" 200).is_release = false)) ∧
    (classify [] [] 128 "ABS_Z" 200).trigger_states
      = alSet [] "ABS_Z" (decide ((128 : ℤ) < 200)) ∧
    classifySeq [] [] "ABS_Z" [0, 50, 200, 200, 10, 0]
      = [("LT", true), ("LT", false)] :=
  c6_trigger_edge_classification [] [] "ABS_Z" "LT" 200 (by decide)

/-- Claim C7: for every nonempty duration list, `analyze_press_durations`
reports the median as the middle element of the sorted list (average of
the two middle elements for even length), the 10th/90th percentiles as the
sorted element at index `floor(n * p)` clamped to `[0, n - 1]`, the counts
of samples at or below 50 ms and 100 ms with their percentages, and the
minimum; the empty list returns the explicit error indicator; and the
concrete list `[10, 20, 30, 40, 50]` yields median 30, mean 30, minimum
10 and a 5-of-5 (100 percent) count at or below 50 ms. -/
theorem c7_analyze_durations (x : ℚ) (xs : List ℚ) :
    (analyzePressDurations (x :: xs)).toOption.map DurationAnalysis.mediana_ms
      = some (round2 (if (x :: xs).length % 2 = 0
          then ((sortQ (x :: xs)).getD ((x :: xs).length / 2 - 1) 0
              + (sortQ (x :: xs)).getD ((x :: xs).length / 2) 0) / 2
          else (sortQ (x :: xs)).getD ((x :: xs).length / 2) 0)) ∧
    (analyzePressDurations (x :: xs)).toOption.map DurationAnalysis.percentile_10
      = some (round2 ((sortQ (x :: xs)).getD
          (min ((x :: xs).length - 1) (max 0 ((x :: xs).length / 10))) 0)) ∧
    (analyzePressDurations (x :: xs)).toOption.map DurationAnalysis.percentile_90
      = some (round2 ((sortQ (x :: xs)).getD
          (min ((x :: xs).length - 1) (max 0 (9 * (x :: xs).length / 10))) 0)) ∧
    (analyzePressDurations (x :: xs)).toOption.map DurationAnalysis.sotto_50ms
      = some ((x :: xs).countP (fun d => decide (d ≤ 50))) ∧
    (analyzePressDurations (x :: xs)).toOption.map DurationAnalysis.sotto_50ms_pct
      = some (round1 (((x :: xs).countP (fun d => decide (d ≤ 50)) : ℚ)
          / ((x :: xs).length : ℚ) * 100)) ∧
    (analyzePressDurations (x :: xs)).toOption.map DurationAnalysis.sotto_100ms
      = some ((x :: xs).countP (fun d => decide (d ≤ 100))) ∧
    (analyzePressDurations (x :: xs)).toOption.map DurationAnalysis.sotto_100ms_pct
      = some (round1 (((x :: xs).countP (fun d => decide (d ≤ 100)) : ℚ)
          / ((x :: xs).length : ℚ) * 100)) ∧
    (analyzePressDurations (x :: xs)).toOption.map DurationAnalysis.min_ms
      = some (round2 (listMin (x :: xs))) ∧
    analyzePressDurations ([] : List ℚ) = Except.error "Nessun dato" ∧
    (analyzePressDurations [10, 20, 30, 40, 50]).toOption.map
        DurationAnalysis.mediana_ms = some 30 ∧
    (analyzePressDurations [10, 20, 30, 40, 50]).toOption.map
        DurationAnalysis.media_ms = some 30 ∧
    (analyzePressDurations [10, 20, 30, 40, 50]).toOption.map
        DurationAnalysis.min_ms = some 10 ∧
    (analyzePressDurations [10, 20, 30, 40, 50]).toOption.map
        DurationAnalysis.campioni = some 5 ∧
    (analyzePressDurations [10, 20, 30, 40, 50]).toOption.map
        DurationAnalysis.sotto_50ms = some 5 ∧
    (analyzePressDurations [10, 20, 30, 40, 50]).toOption.map
        DurationAnalysis.sotto_50ms_pct = some 100 := by
  have h10 : min ((x :: xs).length - 1) (max 0 ((x :: xs).length / 10))
      = max 0 ((x :: xs).length / 10) := by
    apply min_eq_right
    have hd : (x :: xs).length / 10 < (x :: xs).length :=
      Nat.div_lt_self (by simp) (by norm_num)
    omega
  have h90 : min ((x :: xs).length - 1) (max 0 (9 * (x :: xs).length / 10))
      = min ((x :: xs).length - 1) (9 * (x :: xs).length / 10) := by
    rw [Nat.zero_max]
  have hconc : analyzePressDurations [10, 20, 30, 40, 50]
      = Except.ok ⟨5, 30, 30, 10, 50, 200, 10, 50, 10, 5, 100, 5, 100, 200 / 3⟩ := by
    norm_num [analyzePressDurations, sortQ, List.insertionSort,
      List.orderedInsert, listMin, listMax, round2, round1, List.countP,
      List.countP.go]
    exact fun h => absurd h (List.cons_ne_nil _ _)
  refine ⟨?_, ?_, ?_, ?_, ?_, ?_, ?_, ?_, rfl, ?_, ?_, ?_, ?_, ?_, ?_⟩
  · simp [analyzePressDurations, Except.toOption]
  · rw [h10]
    simp [analyzePressDurations, Except.toOption]
  · rw [h90]
    simp [analyzePressDurations, Except.toOption]
  · simp [analyzePressDurations, Except.toOption]
  · simp [analyzePressDurations, Except.toOption]
  · simp [analyzePressDurations, Except.toOption]
  · simp [analyzePressDurations, Except.toOption]
  · simp [analyzePressDurations, Except.toOption]
  all_goals rw [hconc]
  all_goals rfl

/-- Claim C8: with fewer than 3 values the trend is the insufficient-data
label; otherwise the series splits at `floor(n / 2)` and the percent change
of the second-half mean versus the (nonzero) first-half mean decides:
below -5 improving (`"miglioramento"`), above +5 worsening
(`"peggioramento"`), otherwise stable (`"stabile"`); the series
`[100, 100, 100, 60, 60, 60]` is improving. -/
theorem c8_trend_classification (values : List ℚ) :
    (values.length < 3 → calculateTrend values = "dati insufficienti") ∧
    (3 ≤ values.length →
      (values.take (values.length / 2)).sum / ((values.length / 2 : ℕ) : ℚ) ≠ 0 →
      calculateTrend values =
        (if ((values.drop (values.length / 2)).sum
                / ((values.length - values.length / 2 : ℕ) : ℚ)
              - (values.take (values.length / 2)).sum
                / ((values.length / 2 : ℕ) : ℚ))
            / ((values.take (values.length / 2)).sum
                / ((values.length / 2 : ℕ) : ℚ)) * 100 < -5
         then "miglioramento"
         else if ((values.drop (values.length / 2)).sum
                / ((values.length - values.length / 2 : ℕ) : ℚ)
              - (values.take (values.length / 2)).sum
                / ((values.length / 2 : ℕ) : ℚ))
            / ((values.take (values.length / 2)).sum
                / ((values.length / 2 : ℕ) : ℚ)) * 100 > 5
         then "peggioramento"
         else "stabile")) ∧
    calculateTrend [100, 100, 100, 60, 60, 60] = "miglioramento" := by
  refine ⟨?_, ?_, by norm_num [calculateTrend]⟩
  · intro h
    simp [calculateTrend, h]
  · intro h3 hfz
    have hlt : ¬ values.length < 3 := not_lt.mpr h3
    simp only [calculateTrend, if_neg hlt, if_neg hfz]

/-- Claim C8 witness: a two-element series is insufficient data, and the
six-element series of the specification is improving. -/
theorem c8_trend_classification_witness :
    calculateTrend [1, 2] = "dati insufficienti" ∧
    calculateTrend [100, 100, 100, 60, 60, 60] = "miglioramento" :=
  ⟨(c8_trend_classification [1, 2]).1 (by norm_num),
   (c8_trend_classification [100, 100, 100, 60, 60, 60]).2.2⟩

/-- Claim C10: when a series of at least 3 values has first-half mean
exactly 0, the trend calculation takes the zero guard and returns
`"stabile"` without classifying by the percent-change formula (whose
divisor would be 0). -/
theorem c10_zero_first_half_guard (values : List ℚ)
    (h3 : 3 ≤ values.length)
    (h0 : (values.take (values.length / 2)).sum
        / ((values.length / 2 : ℕ) : ℚ) = 0) :
    calculateTrend values = "stabile" := by
  have hlt : ¬ values.length < 3 := not_lt.mpr h3
  simp [calculateTrend, hlt, h0]

/-- Claim C10 witness: the series `[0, 0, 5]` has first-half mean 0 and
yields `"stabile"`. -/
theorem c10_zero_first_half_guard_witness :
    3 ≤ ([0, 0, 5] : List ℚ).length ∧
    (([0, 0, 5] : List ℚ).take (([0, 0, 5] : List ℚ).length / 2)).sum
        / ((([0, 0, 5] : List ℚ).length / 2 : ℕ) : ℚ) = 0 ∧
    calculateTrend [0, 0, 5] = "stabile" :=
  ⟨by norm_num, by norm_num,
   c10_zero_first_half_guard [0, 0, 5] (by norm_num) (by norm_num)⟩

end CCT
